import Mathlib

set_option maxRecDepth 8000

/-!
Verification development for the MeditationAgent repository.

The JavaScript sources are shallowly embedded: pure functions become Lean
functions, the external LLM / TTS / object-store services become oracle
parameters, and the process-local pending-request registry becomes explicit
state passed through step functions.  JavaScript numbers are modelled as
exact rationals plus an explicit NaN; every numeric literal in the source is
exactly representable as a double and all claim-relevant computations are
exact, so the rational model agrees with IEEE-754 evaluation on them.
-/

namespace MeditationAgent

/- ===================== JavaScript value helpers ===================== -/

/-- A JavaScript number as produced by unary `+` coercion: either NaN or an
exact rational. -/
inductive JNum where
  | nan : JNum
  | num : ℚ → JNum
deriving DecidableEq, Repr

/-- A JavaScript value in a position where the source applies `+` coercion:
absent/`undefined`, `null`, a numeric value, or a value whose numeric coercion
is NaN (for example a non-numeric string). -/
inductive JVal where
  | undef : JVal
  | jsNull : JVal
  | num : ℚ → JVal
  | nanv : JVal
deriving DecidableEq, Repr

/-- Unary `+` coercion: `+undefined` is NaN, `+null` is 0. -/
def jsPlus : JVal → JNum
  | .undef => .nan
  | .jsNull => .num 0
  | .num q => .num q
  | .nanv => .nan

/-- Truthiness of a raw JS value: `undefined`, `null`, `0` and NaN are falsy. -/
def JVal.truthy : JVal → Bool
  | .undef => false
  | .jsNull => false
  | .num q => q != 0
  | .nanv => false

/-- The expression `(+x) ?? d` from the source: because unary `+` binds tighter
than `??`, the left operand is already a number (possibly NaN) and is never
nullish, so the default `d` is dead code.  Kept as its own definition so the
precedence fact is visible at the use sites. -/
def jsNullishNum (a : JNum) (_d : ℚ) : JNum := a

/-- Math.min with NaN propagation. -/
def jmin : JNum → JNum → JNum
  | .nan, _ => .nan
  | .num _, .nan => .nan
  | .num a, .num b => .num (min a b)

/-- Math.max with NaN propagation. -/
def jmax : JNum → JNum → JNum
  | .nan, _ => .nan
  | .num _, .nan => .nan
  | .num a, .num b => .num (max a b)

/-- Embedding of `const clamp = (n, min, max) => Math.max(min, Math.min(max, n))`
(tts.js line 63). -/
def clampNum (n mn mx : JNum) : JNum := jmax mn (jmin mx n)

/-- The expression `a || d` on a coerced number (`0` and NaN are falsy). -/
def jsOrNum (a : JNum) (d : ℚ) : ℚ :=
  match a with
  | .num q => if q = 0 then d else q
  | .nan => d

/-- The expression `a || d` on an optional string (`undefined` and `""` falsy). -/
def jsOrStr (a : Option String) (d : String) : String :=
  match a with
  | some s => if s = "" then d else s
  | none => d

/-- The expression `a || b` on optional strings, keeping the option. -/
def jsOrOptStr (a b : Option String) : Option String :=
  match a with
  | some s => if s = "" then b else some s
  | none => b

/-- Truthiness of an optional string. -/
def strTruthy : Option String → Bool
  | some s => s != ""
  | none => false

/-- The expression `a || d` on an optional rational (`0` falsy). -/
def jsOrQ (a : Option ℚ) (d : ℚ) : ℚ :=
  match a with
  | some q => if q = 0 then d else q
  | none => d

/-- Rendering of a JS number in a template literal.  Only integral values occur
in the claims; the decimal rendering of non-integral rationals is not modelled
further. -/
def jsNumToString (q : ℚ) : String :=
  if q.den = 1 then toString q.num else toString q

/-- Rendering of a coerced number; NaN renders as "NaN". -/
def jnumToString : JNum → String
  | .nan => "NaN"
  | .num q => jsNumToString q

/-- UTF-8 byte length of a string, as computed by `Buffer.byteLength(text, 'utf8')`. -/
def jsByteLength (s : String) : ℕ := (s.data.map Char.utf8Size).sum

/- ===================== utils/tts.js ===================== -/

/-- Content hash used for cache keys (tts.js line 62).  Modelled as an injective
key function: the claims depend only on equality of cache keys, never on the
digest format or on hash collisions. -/
def md5 (s : String) : String := s

/-- Embedding of `const langMap = { zh: 1, en: 2, ja: 3 }` (tts.js line 70). -/
def langMap (l : String) : Option ℚ :=
  if l = "zh" then some 1
  else if l = "en" then some 2
  else if l = "ja" then some 3
  else none

/-- Options object accepted by `synthesizeSpeech`; numeric fields are raw JS
values on which the source applies `+` coercion. -/
structure TtsOpts where
  voiceType : JVal := .undef
  speed : JVal := .undef
  volume : JVal := .undef
  sampleRate : JVal := .undef
  lang : Option String := none
  hq : Bool := false
deriving DecidableEq, Repr

/-- Payload object built by `handleMeditationGuide` (meditationGuide.js lines
141-147) and passed to `synthesizeSpeech` as its single argument. -/
structure TtsPayload where
  text : String := ""
  voiceType : String := ""
  speed : ℚ := 0
  volume : ℚ := 0
  format : String := ""
deriving DecidableEq, Repr

/-- First argument of `synthesizeSpeech`: either a string, or (as at the
orchestrator's call site) an object. -/
inductive JsText where
  | str : String → JsText
  | obj : TtsPayload → JsText
deriving DecidableEq, Repr

/-- Input validation of `synthesizeSpeech` (tts.js lines 193-202): throws on
falsy or non-string text, then on text longer than 2000 UTF-8 bytes.  The
character-allowlist test in line 205 only logs a warning and has no semantic
effect, so it is not modelled. -/
def ttsValidate : JsText → Except String String
  | .obj _ => .error "[TTS] text 不能为空"
  | .str s =>
    if s = "" then .error "[TTS] text 不能为空"
    else if jsByteLength s > 2000 then
      .error ("[TTS] text 超长（" ++ toString (jsByteLength s) ++ " 字节，限制 2000 字节）")
    else .ok s

/-- Normalized synthesis parameters (the `fullOpts` object, tts.js lines
214-221). -/
structure FullOpts where
  voiceType : ℚ
  speed : JNum
  volume : JNum
  sampleRate : ℚ
  lang : String
deriving DecidableEq, Repr

/-- Parameter normalization of `synthesizeSpeech` (tts.js lines 209-221),
including the `hq` pre-step that forces the default sample rate. -/
def ttsFullOpts (opts : TtsOpts) : FullOpts :=
  let sampleRateArg := if opts.hq && !opts.sampleRate.truthy then JVal.num 16000 else opts.sampleRate
  { voiceType := jsOrNum (jsPlus opts.voiceType) 1001
    speed := clampNum (jsNullishNum (jsPlus opts.speed) 0) (.num (-2)) (.num 2)
    volume := clampNum (jsNullishNum (jsPlus opts.volume) 5) (.num 0) (.num 10)
    sampleRate := jsOrNum (jsPlus sampleRateArg) 16000
    lang := jsOrStr opts.lang "zh" }

/-- De-duplication cache key of `synthesizeSpeech` (tts.js lines 223-225). -/
def ttsDedupKey (f : FullOpts) (text : String) : String :=
  md5 (jsNumToString f.voiceType ++ "_" ++ jnumToString f.speed ++ "_" ++ jnumToString f.volume
    ++ "_" ++ jsNumToString f.sampleRate ++ "_" ++ f.lang ++ "_" ++ text)

/-- Possible results of the object-store existence probe. -/
inductive HeadRes where
  | hit : HeadRes
  | notFound : HeadRes
  | errOther : String → HeadRes
deriving DecidableEq, Repr

/-- Oracles for the external services reached by `_innerSynthesize`, together
with the frozen COS configuration (tts.js lines 31-59). -/
structure TtsEnv where
  cosConfigured : Bool := true
  bucket : String := "bucket"
  region : String := "ap-shanghai"
  cdn : Option String := none
  head : String → HeadRes := fun _ => .notFound
  ttsTry : ℕ → Except String String := fun _ => .error "service unavailable"
  putTry : ℕ → ℕ → Except String Unit := fun _ _ => .error "service unavailable"

/-- A network call issued by the synthesis pipeline, for stating that
validation failures happen before any network traffic. -/
inductive NetCall where
  | headObject : String → NetCall
  | textToVoice : ℕ → NetCall
  | putObject : String → ℕ → NetCall
deriving DecidableEq, Repr

/-- Result shape of `_innerSynthesize`: `{ url?, base64? }`. -/
structure InnerResult where
  url : Option String := none
  base64 : Option String := none
deriving DecidableEq, Repr

/-- Embedding of `buildUrl` (tts.js lines 64-67). -/
def buildUrl (env : TtsEnv) (k : String) : String :=
  match env.cdn with
  | some c => c ++ "/" ++ k
  | none => "https://" ++ env.bucket ++ ".cos." ++ env.region ++ ".myqcloud.com/" ++ k

/-- One TTS attempt followed by its COS upload attempts (tts.js lines 120-171).
The base64 round trip `Buffer.from(Audio,'base64').toString('base64')` is
modelled as the identity on the oracle's audio string. -/
def ttsAttempt (env : TtsEnv) (cacheKey : String) (n : ℕ) :
    Except String InnerResult × List NetCall :=
  match env.ttsTry n with
  | .error e => (.error e, [.textToVoice n])
  | .ok audio =>
    let base64 := "data:audio/mpeg;base64," ++ audio
    if env.cosConfigured then
      match env.putTry n 0 with
      | .ok _ =>
        (.ok { url := some (buildUrl env cacheKey), base64 := some base64 },
          [.textToVoice n, .putObject cacheKey 0])
      | .error _ =>
        match env.putTry n 1 with
        | .ok _ =>
          (.ok { url := some (buildUrl env cacheKey), base64 := some base64 },
            [.textToVoice n, .putObject cacheKey 0, .putObject cacheKey 1])
        | .error _ =>
          -- upload failed after retry: fall through to the base64-only return
          (.ok { base64 := some base64 },
            [.textToVoice n, .putObject cacheKey 0, .putObject cacheKey 1])
    else
      (.ok { base64 := some base64 }, [.textToVoice n])

/-- The retry loop of `_innerSynthesize` (tts.js lines 119-183): at most two
synthesis attempts; after the second failure the last error is rethrown. -/
def synthAttempts (env : TtsEnv) (cacheKey : String) :
    Except String InnerResult × List NetCall :=
  match ttsAttempt env cacheKey 0 with
  | (.ok r, c1) => (.ok r, c1)
  | (.error _, c1) =>
    match ttsAttempt env cacheKey 1 with
    | (.ok r, c2) => (.ok r, c1 ++ c2)
    | (.error e2, c2) => (.error ("[TTS] 合成失败: " ++ e2), c1 ++ c2)

/-- Embedding of `_innerSynthesize` (tts.js lines 81-184): re-normalizes the
parameters it receives, probes the COS cache, then synthesizes with retry. -/
def innerSynthesize (env : TtsEnv) (text : String) (opts : FullOpts) :
    Except String InnerResult × List NetCall :=
  -- lines 83-87: same coercion pattern as the caller; note the dead `?? 0`
  -- default again leaves NaN speed/volume as NaN
  let voiceType := jsOrNum (.num opts.voiceType) 1001
  let speed := clampNum (jsNullishNum opts.speed 0) (.num (-2)) (.num 2)
  let volume := clampNum (jsNullishNum opts.volume 5) (.num 0) (.num 10)
  let sampleRate := jsOrNum (.num opts.sampleRate) 16000
  let primaryLanguage := (langMap opts.lang).getD ((langMap "zh").getD 1)
  let cacheKey := "meditation/audio/" ++ md5 (jsNumToString voiceType ++ "_"
    ++ jnumToString speed ++ "_" ++ jnumToString volume ++ "_"
    ++ jsNumToString sampleRate ++ "_" ++ jsNumToString primaryLanguage ++ "_" ++ text) ++ ".mp3"
  if env.cosConfigured then
    match env.head cacheKey with
    | .hit => (.ok { url := some (buildUrl env cacheKey) }, [.headObject cacheKey])
    | _ =>
      -- not-found responses and other probe errors both fall through to synthesis
      let (r, calls) := synthAttempts env cacheKey
      (r, .headObject cacheKey :: calls)
  else
    synthAttempts env cacheKey

/-- Process-local pending registry (`const pending = new Map()`, tts.js line 73)
as an association list from cache key to task id, plus a fresh-id counter. -/
structure RegState where
  pending : List (String × ℕ) := []
  nextId : ℕ := 0
deriving DecidableEq, Repr

/-- Removal of a key from the registry (`pending.delete(cacheKey)` in the
`.finally` handler, tts.js lines 233-235). -/
def mapDelete (l : List (String × ℕ)) (k : String) : List (String × ℕ) :=
  l.filter (fun kv => kv.1 != k)

/-- Outcome of the synchronous part of a `synthesizeSpeech` call. -/
inductive StartOutcome where
  | threw : String → StartOutcome
  | reused : ℕ → StartOutcome
  | started : ℕ → StartOutcome
deriving DecidableEq, Repr

/-- Synchronous body of `synthesizeSpeech` (tts.js lines 192-238): validation,
normalization, de-dup key derivation, and the pending-registry check/insert.
In the single-threaded JS scheduler this whole body runs atomically before the
asynchronous task yields. -/
def synthesizeSpeechStart (st : RegState) (text : JsText) (opts : TtsOpts) :
    StartOutcome × RegState :=
  match ttsValidate text with
  | .error e => (.threw e, st)
  | .ok s =>
    let key := ttsDedupKey (ttsFullOpts opts) s
    match st.pending.lookup key with
    | some t => (.reused t, st)
    | none =>
      (.started st.nextId,
        { pending := (key, st.nextId) :: st.pending, nextId := st.nextId + 1 })

/-- Settlement of a registered task: whatever its outcome, the `.finally`
handler deletes the registry entry. -/
def settleTask (st : RegState) (key : String) : RegState :=
  { st with pending := mapDelete st.pending key }

/-- Interleaved registry events of one process: a `synthesizeSpeech` call's
synchronous body, or the settlement of some earlier task. -/
inductive RegEvent where
  | callEv : JsText → TtsOpts → RegEvent
  | settleEv : String → RegEvent

/-- Effect of one registry event on the registry state. -/
def regStep (st : RegState) : RegEvent → RegState
  | .callEv text opts => (synthesizeSpeechStart st text opts).2
  | .settleEv key => settleTask st key

/-- Registry state after a trace of events, starting from the empty map. -/
def runReg (tr : List RegEvent) : RegState := tr.foldl regStep {}

/-- Outcome of one complete `synthesizeSpeech` call run in isolation. -/
inductive RunOutcome where
  | threw : String → RunOutcome
  | reusedPending : ℕ → RunOutcome
  | completed : ℕ → Except String InnerResult → RunOutcome

/-- One `synthesizeSpeech` call run to completion with no interleaving: the
synchronous body, then (for a fresh key) the inner synthesis and the settling
`.finally` handler.  The network calls of the run are recorded. -/
def synthesizeSpeechRun (env : TtsEnv) (st : RegState) (text : JsText) (opts : TtsOpts) :
    RunOutcome × RegState × List NetCall :=
  match ttsValidate text with
  | .error e => (.threw e, st, [])
  | .ok s =>
    let f := ttsFullOpts opts
    let key := ttsDedupKey f s
    match st.pending.lookup key with
    | some t => (.reusedPending t, st, [])
    | none =>
      let (r, calls) := innerSynthesize env s f
      let afterInsert : List (String × ℕ) := (key, st.nextId) :: st.pending
      (.completed st.nextId r,
        { pending := mapDelete afterInsert key, nextId := st.nextId + 1 }, calls)

/-- Result shape probed by the orchestrator at meditationGuide.js line 149.
The fields `success` and `audioUrl` are absent from what `synthesizeSpeech`
actually returns (`{ url?, base64? }`), hence their falsy defaults. -/
structure TtsResp where
  success : Bool := false
  audioUrl : Option String := none
  url : Option String := none
  duration : Option ℚ := none
  format : Option String := none
  base64 : Option String := none
deriving DecidableEq, Repr

/-- The orchestrator's TTS boundary as actually wired (meditationGuide.js line
141): the options object is passed as `synthesizeSpeech`'s single (text)
argument, with the options parameter left at its `{}` default. -/
def realTts (env : TtsEnv) (st : RegState) (p : TtsPayload) : Except String TtsResp :=
  match (synthesizeSpeechRun env st (.obj p) {}).1 with
  | .threw e => .error e
  | .reusedPending _ => .ok {}
  | .completed _ (.error e) => .error e
  | .completed _ (.ok r) => .ok { url := r.url, base64 := r.base64 }

/- ===================== prompts/meditation_types.json ===================== -/

/-- Localized string map `{ zh, en }` used throughout the topic catalog. -/
structure LocStr where
  zh : String
  en : String
deriving DecidableEq, Repr

/-- Indexing a localized map with a JS language value: keys other than
`zh`/`en` yield `undefined`. -/
def LocStr.lookup (n : LocStr) (lang : Option String) : Option String :=
  if lang = some "zh" then some n.zh
  else if lang = some "en" then some n.en
  else none

/-- Localized list map `{ zh, en }`. -/
structure LocList where
  zh : List String
  en : List String
deriving DecidableEq, Repr

def LocList.lookup (n : LocList) (lang : Option String) : Option (List String) :=
  if lang = some "zh" then some n.zh
  else if lang = some "en" then some n.en
  else none

/-- One entry of the topic catalog, following the TopicDescriptor data model. -/
structure TopicType where
  id : String
  name : LocStr
  description : LocStr
  recommendedStyles : List String
  defaultDuration : ℚ
  targetAudience : LocList
  benefits : LocList
  keywords : List String
  techniques : Option (List String) := none
  bestTime : Option (List String) := none
  progression : Option (List String) := none
deriving DecidableEq, Repr

/-- The loaded `meditation_types.json` configuration: topic entries plus the
style definitions the prompt builder turns into its style map. -/
structure Catalog where
  types : List TopicType
  styleDefinitions : List (String × LocStr)
deriving DecidableEq, Repr

/-- Modelled from the spec: the static topic catalog `prompts/meditation_types.json`
is loaded by `meditation_prompt.js` but is not among the files under `src/`.
Following the spec's TopicDescriptor data model (section 3) and its examples — a
`sleep` topic with a 30-minute default duration (default recommendation table in
`meditationGuide.js`) and per-topic recommended styles — we model a minimal
catalog with a `sleep` entry and a `basic-relaxation` entry. -/
def sleepTopic : TopicType :=
  { id := "sleep"
    name := { zh := "助眠", en := "Sleep Meditation" }
    description := { zh := "帮助入睡的冥想引导", en := "Guided sleep assistance" }
    recommendedStyles := ["healing", "gentle"]
    defaultDuration := 30
    targetAudience := { zh := ["失眠人群"], en := ["People with insomnia"] }
    benefits := { zh := ["改善睡眠质量"], en := ["Better sleep quality"] }
    keywords := ["睡眠", "失眠", "入睡"] }

/-- Modelled from the spec: a second catalog entry matching the orchestrator's
default topic name. -/
def basicRelaxTopic : TopicType :=
  { id := "basic-relaxation"
    name := { zh := "基础放松", en := "Basic Relaxation" }
    description := { zh := "适合初学者的放松练习", en := "Beginner-friendly relaxation" }
    recommendedStyles := ["gentle"]
    defaultDuration := 10
    targetAudience := { zh := ["初学者"], en := ["Beginners"] }
    benefits := { zh := ["缓解压力"], en := ["Stress relief"] }
    keywords := ["放松", "减压"] }

/-- Modelled from the spec: the catalog instance used for concrete scenarios. -/
def specCatalog : Catalog :=
  { types := [sleepTopic, basicRelaxTopic]
    styleDefinitions :=
      [ ("gentle", { zh := "温柔引导", en := "gentle guidance" })
      , ("healing", { zh := "疗愈安抚", en := "healing comfort" })
      , ("mindful", { zh := "正念觉察", en := "mindful awareness" })
      , ("zen", { zh := "禅意空灵", en := "zen stillness" })
      , ("nature", { zh := "自然意象", en := "nature imagery" })
      , ("modern", { zh := "现代科学", en := "modern science" }) ] }

/- ===================== utils/meditation_prompt.js ===================== -/

/-- Three-valued JS string argument for parameter destructuring: `undefined`
triggers the destructuring default, `null` does not. -/
inductive JsArgS where
  | undef : JsArgS
  | nullv : JsArgS
  | val : String → JsArgS
deriving DecidableEq, Repr

/-- Three-valued JS number argument for parameter destructuring. -/
inductive JsArgN where
  | undef : JsArgN
  | nullv : JsArgN
  | val : ℚ → JsArgN
deriving DecidableEq, Repr

/-- Destructuring with a default: `undefined` becomes the default, `null`
stays nullish (`none`). -/
def destructS (d : String) : JsArgS → Option String
  | .undef => some d
  | .nullv => none
  | .val s => some s

def destructN (d : ℚ) : JsArgN → Option ℚ
  | .undef => some d
  | .nullv => none
  | .val q => some q

/-- Customization options recognized by the prompt builder. -/
structure Customization where
  additionalConstraints : List String := []
  specialRequirements : List String := []
deriving DecidableEq, Repr

/-- Argument object of `buildPrompt` (meditation_prompt.js lines 69-75),
keeping the undefined/null distinction the destructuring defaults depend on. -/
structure BuildPromptArgs where
  topic : JsArgS := .undef
  style : JsArgS := .undef
  duration : JsArgN := .undef
  language : JsArgS := .undef
  customization : Customization := {}
deriving DecidableEq, Repr

/-- Topic lookup `_findTopicConfig` (meditation_prompt.js lines 122-129):
match by id, Chinese name, English name, or keyword membership. -/
def findTopicConfig (c : Catalog) (topic : Option String) : Option TopicType :=
  match topic with
  | none => none
  | some s =>
    c.types.find? (fun t =>
      t.id == s || t.name.zh == s || t.name.en == s || t.keywords.contains s)

/-- Reassignment `style = style || topicConfig.recommendedStyles[0]`
(meditation_prompt.js line 81), applied to the value the destructuring default
already produced. -/
def resolvedStyle (cfg? : Option TopicType) (style0 : Option String) : Option String :=
  match cfg? with
  | some cfg => if strTruthy style0 then style0 else cfg.recommendedStyles.head?
  | none => style0

/-- Truthiness of an optional number. -/
def numTruthy : Option ℚ → Bool
  | some q => q != 0
  | none => false

/-- Reassignment `duration = duration || topicConfig.defaultDuration`
(meditation_prompt.js line 82). -/
def resolvedDuration (cfg? : Option TopicType) (d0 : Option ℚ) : Option ℚ :=
  match cfg? with
  | some cfg => if numTruthy d0 then d0 else some cfg.defaultDuration
  | none => d0

/-- One language template (meditation_prompt.js lines 23-42); the `structure`
constraint field is renamed `structureC` because `structure` is a Lean keyword. -/
structure Template where
  systemRole : String
  tone : String
  structureC : String
  languageC : String
  timing : String
deriving DecidableEq, Repr

def zhTemplate : Template :=
  { systemRole := "你是一位经验丰富的冥想引导师，擅长用温和、平静的语言引导练习者进入深度放松状态。"
    tone := "语气温和、节奏缓慢、充满关怀"
    structureC := "包含开场引导、主体练习、结束回归三个部分"
    languageC := "使用简单易懂的语言，避免专业术语"
    timing := "适当留白，给练习者充分的感受时间" }

def enTemplate : Template :=
  { systemRole := "You are an experienced meditation guide, skilled in using gentle and calm language to guide practitioners into deep relaxation."
    tone := "Gentle, slow-paced, caring"
    structureC := "Include opening guidance, main practice, and closing return"
    languageC := "Use simple, accessible language, avoid jargon"
    timing := "Include appropriate pauses for practitioners to experience" }

/-- Style map built from the catalog's style definitions (lines 45-48): each
style id maps to the Chinese description. -/
def styleMapLookup (c : Catalog) (s : String) : Option String :=
  (c.styleDefinitions.lookup s).map LocStr.zh

/-- Duration description map (lines 51-56). -/
def durationMapLookup (q : ℚ) : Option String :=
  if q = 5 then some "简短练习（约5分钟）"
  else if q = 10 then some "标准练习（约10分钟）"
  else if q = 15 then some "深度练习（约15分钟）"
  else if q = 20 then some "完整练习（约20分钟）"
  else none

/-- Rendering of a possibly-nullish string in a template literal.  The claims
never exercise a nullish value here, so the distinct renderings of `null` and
`undefined` are collapsed to one. -/
def jsShowS (x : Option String) : String := x.getD "undefined"

/-- String.prototype.join. -/
def joinGlue (sep : String) (l : List String) : String := String.intercalate sep l

/-- Embedding of `_buildMainInstruction` (meditation_prompt.js lines 134-146). -/
def buildMainInstruction (topic : Option String) (styleName : String) (durDesc : String)
    (language : Option String) (cfg? : Option TopicType) : String :=
  let topicName : Option String :=
    match cfg? with
    | some cfg => cfg.name.lookup language
    | none => topic
  let description : Option String :=
    match cfg? with
    | some cfg => cfg.description.lookup language
    | none => some ""
  if language = some "zh" then
    let instruction := "请为「" ++ jsShowS topicName ++ "」主题创建一段" ++ styleName
      ++ "风格的冥想引导词，时长" ++ durDesc ++ "。"
    if strTruthy description then instruction ++ "\n主题说明：" ++ jsShowS description
    else instruction
  else
    let instruction := "Please create a " ++ styleName
      ++ " style meditation guidance for \"" ++ jsShowS topicName ++ "\", duration "
      ++ durDesc ++ "."
    if strTruthy description then instruction ++ "\nTheme description: " ++ jsShowS description
    else instruction

/-- Embedding of `_buildConstraints` (meditation_prompt.js lines 151-178).  The
audience/benefit lines use the hard-coded `'zh'` from line 161; the JS truthiness
tests on the (always present) arrays are always true. -/
def buildConstraints (tpl : Template) (cust : Customization) (cfg? : Option TopicType) : String :=
  let base := ["- " ++ tpl.tone, "- " ++ tpl.structureC, "- " ++ tpl.languageC, "- " ++ tpl.timing]
  let withTopic := base ++
    (match cfg? with
     | some cfg =>
       [ "- 适合人群：" ++ joinGlue "、" cfg.targetAudience.zh
       , "- 练习益处：" ++ joinGlue "、" cfg.benefits.zh ]
     | none => [])
  let all := withTopic ++ cust.additionalConstraints.map (fun con => "- " ++ con)
  joinGlue "\n" all

/-- Embedding of `_buildOutputFormat` (meditation_prompt.js lines 183-199). -/
def buildOutputFormat (language : Option String) : String :=
  if language = some "zh" then
    joinGlue "\n"
      [ "1. 开场引导（1-2分钟）：帮助练习者放松身心，进入冥想状态"
      , "2. 主体练习（根据主题展开）：核心引导内容"
      , "3. 结束回归（1分钟）：温和地引导练习者回到当下"
      , "4. 使用\"...\"表示停顿，给练习者留出感受的时间"
      , "5. 每个段落控制在2-3句话，保持节奏舒缓" ]
  else
    joinGlue "\n"
      [ "1. Opening guidance (1-2 minutes): Help practitioners relax and enter meditation"
      , "2. Main practice (based on theme): Core guidance content"
      , "3. Closing return (1 minute): Gently guide practitioners back to present"
      , "4. Use \"...\" to indicate pauses for practitioners to experience"
      , "5. Keep each paragraph to 2-3 sentences for gentle pacing" ]

/-- Hard-coded per-topic requirements `_getTopicSpecificRequirements`
(meditation_prompt.js lines 256-275). -/
def hardcodedTopicReq (language : Option String) (topic : Option String) : Option String :=
  if language = some "zh" then
    match topic with
    | some "助眠" => some "- 使用更加缓慢、轻柔的语调\n- 引导想象舒适、安全的环境\n- 逐步放松身体各个部位"
    | some "缓解焦虑" => some "- 强调呼吸的重要性\n- 引导觉察但不评判当下的感受\n- 培养内在的平静与接纳"
    | some "身体扫描" => some "- 从头到脚或从脚到头系统引导\n- 每个部位停留适当时间\n- 鼓励觉察而非改变"
    | some "慈心冥想" => some "- 从自己开始，逐步扩展到他人\n- 使用温暖、充满爱的语言\n- 培养慈悲与善意"
    | some "呼吸冥想" => some "- 详细引导呼吸的观察\n- 可以加入数息练习\n- 强调自然、不强迫"
    | _ => none
  else if language = some "en" then
    match topic with
    | some "sleep" => some "- Use slower, gentler tone\n- Guide visualization of comfortable, safe environment\n- Progressive body relaxation"
    | some "anxiety relief" => some "- Emphasize importance of breathing\n- Guide awareness without judgment\n- Cultivate inner calm and acceptance"
    | some "body scan" => some "- Systematic guidance from head to toe or toe to head\n- Appropriate pause for each body part\n- Encourage awareness rather than change"
    | some "loving-kindness" => some "- Start with self, gradually extend to others\n- Use warm, loving language\n- Cultivate compassion and kindness"
    | some "breath meditation" => some "- Detailed guidance on breath observation\n- Can include counting breaths\n- Emphasize natural, non-forced breathing"
    | _ => none
  else none

/-- Embedding of `_buildSpecialRequirements` (meditation_prompt.js lines
204-251). -/
def buildSpecialRequirements (topic : Option String) (cust : Customization)
    (language : Option String) (cfg? : Option TopicType) : String :=
  let isZh := language = some "zh"
  let fromConfig : List String :=
    match cfg? with
    | some cfg =>
      (match cfg.techniques with
       | some ts =>
         [if isZh then "建议使用技巧：" ++ joinGlue "、" ts
          else "Suggested techniques: " ++ joinGlue ", " ts]
       | none => []) ++
      (match cfg.bestTime with
       | some bs =>
         [if isZh then "最佳练习时间：" ++ joinGlue "、" bs
          else "Best practice time: " ++ joinGlue ", " bs]
       | none => []) ++
      (match cfg.progression with
       | some ps =>
         [if isZh then "引导顺序：" ++ joinGlue " → " ps
          else "Guidance sequence: " ++ joinGlue " → " ps]
       | none => [])
    | none => []
  let withHardcoded := fromConfig ++
    (match cfg? with
     | none =>
       match hardcodedTopicReq language topic with
       | some h => [h]
       | none => []
     | some _ => [])
  let reqs := withHardcoded ++ cust.specialRequirements
  if reqs.isEmpty then (if isZh then "无特殊要求" else "No special requirements")
  else joinGlue "\n" reqs

/-- Embedding of `buildPrompt` (meditation_prompt.js lines 69-117): parameter
destructuring with defaults, topic-config resolution, then assembly of the
multi-section prompt, trimmed like the template literal. -/
def buildPrompt (c : Catalog) (args : BuildPromptArgs) : String :=
  let topic := destructS "基础放松" args.topic
  let style0 := destructS "gentle" args.style
  let duration0 := destructN 10 args.duration
  let language := destructS "zh" args.language
  let cfg? := findTopicConfig c topic
  let style := resolvedStyle cfg? style0
  let duration := resolvedDuration cfg? duration0
  -- `this.templates[language] || this.templates.zh`
  let tpl := if language = some "en" then enTemplate else zhTemplate
  -- `this.styleMap[style] || style`
  let styleName :=
    match style with
    | some s => (styleMapLookup c s).getD s
    | none => jsShowS none
  -- `this.durationMap[duration] || 约${duration}分钟`
  let durDesc :=
    match duration with
    | some q => (durationMapLookup q).getD ("约" ++ jsNumToString q ++ "分钟")
    | none => "约" ++ jsShowS none ++ "分钟"
  let mainInstruction := buildMainInstruction topic styleName durDesc language cfg?
  let constraints := buildConstraints tpl args.customization cfg?
  let outputFormat := buildOutputFormat language
  let special := buildSpecialRequirements topic args.customization language cfg?
  ("\n" ++ tpl.systemRole
    ++ "\n\n【任务要求】\n" ++ mainInstruction
    ++ "\n\n【引导原则】\n" ++ constraints
    ++ "\n\n【输出格式】\n" ++ outputFormat
    ++ "\n\n【特殊要求】\n" ++ special
    ++ "\n\n请生成冥想引导词：").trim

/-- Result of `getTopicDetails` (meditation_prompt.js lines 294-308). -/
structure TopicDetails where
  id : String
  name : Option String
  description : Option String
  recommendedStyles : List String
  defaultDuration : ℚ
  targetAudience : Option (List String)
  benefits : Option (List String)
  keywords : List String
deriving DecidableEq, Repr

def getTopicDetails (c : Catalog) (topic : Option String) (language : Option String) :
    Option TopicDetails :=
  match findTopicConfig c topic with
  | none => none
  | some cfg =>
    some { id := cfg.id
           name := cfg.name.lookup language
           description := cfg.description.lookup language
           recommendedStyles := cfg.recommendedStyles
           defaultDuration := cfg.defaultDuration
           targetAudience := cfg.targetAudience.lookup language
           benefits := cfg.benefits.lookup language
           keywords := cfg.keywords }

/-- Embedding of `getSupportedTopics` (meditation_prompt.js lines 280-282):
the localized names of every catalog entry (possibly `undefined`). -/
def getSupportedTopics (c : Catalog) (language : Option String) : List (Option String) :=
  c.types.map (fun t => t.name.lookup language)

/- ===================== config.js ===================== -/

/- Constants from config.js with the environment variables modelled as unset,
so every default applies.  The flags STRICT_TOPIC_VALIDATION / ENABLE_ANALYTICS
remain parameters of the orchestrator environment. -/

def DEFAULT_MODEL : String := "hunyuan-lite"
def DEFAULT_VOICE_TYPE : String := "zh-CN-XiaoyouNeural"
def DEFAULT_SPEED : ℚ := 17/20
def DEFAULT_VOLUME : ℚ := 0
def DEFAULT_FORMAT : String := "mp3"
def DEFAULT_DURATION : ℚ := 10
def WORDS_PER_MINUTE : ℚ := 175
def TOKENS_PER_WORD : ℚ := 3/2
def TOKEN_BUFFER : ℚ := 6/5
def SUPPORTED_LANGUAGES : List String := ["zh", "en"]

def ERROR_INVALID_LANGUAGE : String := "PARAM_INVALID_LANGUAGE"
def ERROR_INVALID_DURATION : String := "PARAM_INVALID_DURATION"
def ERROR_INVALID_TOPIC : String := "PARAM_INVALID_TOPIC"
def ERROR_LLM_FAILED : String := "LLM_CALL_FAILED"
def ERROR_EMPTY_CONTENT : String := "LLM_CONTENT_EMPTY"

def TOPIC_VOICE_MAP : List (String × String) :=
  [ ("助眠", "zh-CN-XiaoyouNeural")
  , ("晨间唤醒", "zh-CN-YunyangNeural")
  , ("儿童冥想", "zh-CN-XiaoxiaoNeural") ]

def STYLE_VOICE_MAP : List (String × String) :=
  [ ("gentle", "zh-CN-XiaoyouNeural")
  , ("healing", "zh-CN-YunxiNeural")
  , ("mindful", "zh-CN-XiaoxiaoNeural")
  , ("zen", "zh-CN-YunzeNeural")
  , ("nature", "zh-CN-XiaoyouNeural")
  , ("modern", "zh-CN-YunyangNeural") ]

/- ===================== router/meditationGuide.js ===================== -/

/-- The `options` object of a generation request. -/
structure ReqOptions where
  model : Option String := none
  temperature : Option ℚ := none
  speed : Option ℚ := none
  volume : Option ℚ := none
  format : Option String := none
  voiceType : Option String := none
  skipAudio : Bool := false
  customization : Customization := {}
deriving DecidableEq, Repr

/-- A cloud-function event as consumed by `handleMeditationGuide`; `none`
means the property is absent. -/
structure Event where
  topic : Option String := none
  style : Option String := none
  duration : Option ℚ := none
  language : Option String := none
  voice : Option Bool := none
  options : Option ReqOptions := none
deriving DecidableEq, Repr

/-- One chat message. -/
structure LlmMessage where
  role : String
  content : String
deriving DecidableEq, Repr

/-- The request object handed to `callLLM` (meditationGuide.js lines 80-96). -/
structure LlmRequest where
  messages : List LlmMessage
  model : String
  temperature : ℚ
  maxTokens : ℤ
deriving DecidableEq, Repr

/-- The `data` part of an LLM response; the three optional fields are the three
response shapes the orchestrator probes in priority order (lines 111-114). -/
structure LlmData where
  text : Option String := none
  choicesContent : Option String := none
  content : Option String := none
deriving DecidableEq, Repr

/-- A structured error object `{ code, message }`. -/
structure ErrObj where
  code : String
  message : String := ""
deriving DecidableEq, Repr

/-- Normalized LLM response envelope. -/
structure LlmResp where
  success : Bool := false
  data : Option LlmData := none
  error : Option ErrObj := none
deriving DecidableEq, Repr

/-- Content extraction `llmResp.data?.text || ...choices[0].message.content ||
...content || ''` (meditationGuide.js lines 111-114). -/
def extractText (r : LlmResp) : String :=
  match r.data with
  | none => ""
  | some d => jsOrStr d.text (jsOrStr d.choicesContent (jsOrStr d.content ""))

/-- The audio part of a successful result (lines 150-154). -/
structure AudioData where
  url : Option String := none
  duration : Option ℚ := none
  format : String := DEFAULT_FORMAT
deriving DecidableEq, Repr

/-- Result metadata (lines 175-188).  The wall-clock `generatedAt` timestamp is
not modelled; `textLength`/`wordCount` count code points (all claim-relevant
characters are in the BMP, where this agrees with JS UTF-16 lengths). -/
structure Metadata where
  topic : Option String
  topicId : Option String
  style : Option String
  duration : ℚ
  mode : String
  language : String
  benefits : Option (List String)
  targetAudience : Option (List String)
  textLength : ℕ
  wordCount : ℕ
  estimatedReadTime : ℤ
deriving DecidableEq, Repr

/-- The `data` of a successful generation result. -/
structure GenData where
  text : String
  audio : Option AudioData
  metadata : Metadata
deriving DecidableEq, Repr

/-- The uniform result envelope of the orchestrator. -/
structure GenResult where
  success : Bool
  data : Option GenData := none
  error : Option ErrObj := none
deriving DecidableEq, Repr

/-- Embedding of `validateInputs` (meditationGuide.js lines 224-265). -/
def validateInputs (strict : Bool) (c : Catalog) (topic : String) (language : String)
    (duration : ℚ) : Option ErrObj :=
  if language ≠ "" ∧ language ∉ SUPPORTED_LANGUAGES then
    some { code := ERROR_INVALID_LANGUAGE, message := "不支持的语言，目前仅支持 zh、en" }
  else if duration ≠ 0 ∧ (duration < 1 ∨ duration > 60) then
    some { code := ERROR_INVALID_DURATION, message := "时长必须在 1-60 分钟之间" }
  else if strict then
    let lang' := if language = "" then "zh" else language
    let supported := getSupportedTopics c (some lang')
    let details := getTopicDetails c (some topic) (some lang')
    if details = none ∧ (some topic) ∉ supported then
      some { code := ERROR_INVALID_TOPIC, message := "不支持的主题: " ++ topic }
    else none
  else none

/-- Token budget `calculateMaxTokens` (meditationGuide.js lines 272-276).  The
JS float literals 1.5, 1.2, 0.8 are modelled as exact rationals; at every
integer duration in the validated range the double computation is exact, so the
models agree on every claim-relevant input. -/
def calculateMaxTokens (duration : ℚ) (isQuickMode : Bool) : ℤ :=
  let tokenMultiplier : ℚ := if isQuickMode then 4/5 else 1
  ⌊duration * WORDS_PER_MINUTE * TOKENS_PER_WORD * TOKEN_BUFFER * tokenMultiplier⌋

/-- Embedding of `getVoiceByStyleAndTopic` (meditationGuide.js lines 281-286). -/
def getVoiceByStyleAndTopic (style : Option String) (topic : String) : String :=
  match TOPIC_VOICE_MAP.lookup topic with
  | some v => v
  | none =>
    match style with
    | some s => (STYLE_VOICE_MAP.lookup s).getD DEFAULT_VOICE_TYPE
    | none => DEFAULT_VOICE_TYPE

/-- Embedding of `countWords` (meditationGuide.js lines 291-299): Chinese text
counts CJK characters, other languages count whitespace-separated words. -/
def countWords (text : String) (language : String) : ℕ :=
  if language = "zh" then
    (text.data.filter (fun ch => 0x4e00 ≤ ch.toNat && ch.toNat ≤ 0x9fa5)).length
  else
    ((text.split Char.isWhitespace).filter (fun w => w.length > 0)).length

/-- Embedding of `estimateReadTime` (meditationGuide.js lines 304-308). -/
def estimateReadTime (text : String) (language : String) : ℤ :=
  let wordCount : ℚ := countWords text language
  let wordsPerMinute : ℚ := if language = "zh" then 180 else 150
  ⌈wordCount / wordsPerMinute * 60⌉

/-- The two system prompts (meditationGuide.js lines 84-86). -/
def quickSystemPrompt : String :=
  "你是一个专业的冥想引导师，擅长创作简短有力的快速冥想引导。请确保内容紧凑、直接、有效。"

def standardSystemPrompt : String :=
  "你是一个专业的冥想引导师，擅长创作温和、平静的冥想引导词。"

/-- Quick-mode inline prompt (meditationGuide.js line 66): the builder exports
no `buildQuickPrompt`, so the optional-chaining test fails and the template
literal fallback is used. -/
def quickFallbackPrompt (duration : ℚ) (topic : String) : String :=
  "请生成一段简短的" ++ jsNumToString duration ++ "分钟冥想引导。主题：" ++ topic
    ++ "。要求：语言温柔，节奏紧凑，直接进入主题，避免冗长开场。"

/-- Effective duration `rawDuration || config.DEFAULT_DURATION`
(meditationGuide.js line 47). -/
def effectiveDuration (e : Event) : ℚ :=
  match e.duration with
  | some d => if d = 0 then DEFAULT_DURATION else d
  | none => DEFAULT_DURATION

/-- The orchestrator's environment: configuration flags, the catalog, and the
two external collaborators bound by `require` (LLM client and TTS module). -/
structure OrchEnv where
  strict : Bool := false
  catalog : Catalog := specCatalog
  llm : LlmRequest → LlmResp
  tts : TtsPayload → Except String TtsResp

/-- Instrumented output of `handleMeditationGuide`: the returned envelope plus
the LLM request and TTS payload actually issued (if any). -/
structure OrchOut where
  result : GenResult
  llmReq : Option LlmRequest := none
  ttsReq : Option TtsPayload := none

def toArgS : Option String → JsArgS
  | none => .undef
  | some s => .val s

/-- Quick-mode test `duration < 3` (meditationGuide.js line 50). -/
def orchIsQuick (e : Event) : Bool := decide (effectiveDuration e < 3)

/-- Prompt and LLM-request construction of `handleMeditationGuide`
(meditationGuide.js lines 62-96): quick-mode prompt fallback or the standard
prompt builder, then the system message, sampling parameters and token
budget. -/
def orchLlmRequest (env : OrchEnv) (e : Event) : LlmRequest :=
  let topic := e.topic.getD "基础放松"
  let options := e.options.getD {}
  let duration := effectiveDuration e
  let isQuickMode := orchIsQuick e
  let prompt :=
    if isQuickMode then quickFallbackPrompt duration topic
    else buildPrompt env.catalog
      { topic := .val topic, style := toArgS e.style, duration := .val duration,
        language := .val (e.language.getD "zh"), customization := options.customization }
  { messages :=
      [ { role := "system",
          content := if isQuickMode then quickSystemPrompt else standardSystemPrompt }
      , { role := "user", content := prompt } ]
    model := jsOrStr options.model DEFAULT_MODEL
    temperature := if isQuickMode then 3/5 else jsOrQ options.temperature (7/10)
    maxTokens := calculateMaxTokens duration isQuickMode }

/-- Handling of one synthesis outcome (meditationGuide.js lines 149-162): a
thrown error is caught (lines 159-162) and a response without a truthy
`success` or `audioUrl` is logged as failure — both leave the audio at `null`;
otherwise the audio object of lines 150-154 is built. -/
def ttsOutcomeToAudio (res : Except String TtsResp) : Option AudioData :=
  match res with
  | .error _ => none
  | .ok r =>
    if r.success = true ∨ strTruthy r.audioUrl then
      some { url := jsOrOptStr r.audioUrl r.url
             duration := r.duration
             format := jsOrStr r.format DEFAULT_FORMAT }
    else none

/-- Voice phase of `handleMeditationGuide` (meditationGuide.js lines 130-163):
gated by `voice && language === 'zh'`.  Returns the payload actually sent (if
any) and the resulting audio data. -/
def orchVoicePhase (env : OrchEnv) (e : Event) (meditationText : String) :
    Option TtsPayload × Option AudioData :=
  let topic := e.topic.getD "基础放松"
  let options := e.options.getD {}
  if e.voice.getD false = true ∧ e.language.getD "zh" = "zh" then
    let speechRate :=
      if orchIsQuick e then jsOrQ options.speed (11/10)
      else jsOrQ options.speed DEFAULT_SPEED
    let payload : TtsPayload :=
      { text := meditationText
        voiceType := jsOrStr options.voiceType (getVoiceByStyleAndTopic e.style topic)
        speed := speechRate
        volume := jsOrQ options.volume DEFAULT_VOLUME
        format := jsOrStr options.format DEFAULT_FORMAT }
    (some payload, ttsOutcomeToAudio (env.tts payload))
  else (none, none)

/-- Metadata assembly (meditationGuide.js lines 165-190). -/
def orchMetadata (env : OrchEnv) (e : Event) (meditationText : String) : Metadata :=
  let topic := e.topic.getD "基础放松"
  let language := e.language.getD "zh"
  let topicDetails := getTopicDetails env.catalog (some topic) (some language)
  { topic := match topicDetails with | some td => td.name | none => some topic
    topicId := topicDetails.map (fun td => td.id)
    style := jsOrOptStr e.style
      (match topicDetails with
       | some td => td.recommendedStyles.head?
       | none => some "gentle")
    duration := effectiveDuration e
    mode := if orchIsQuick e then "quick" else "standard"
    language := language
    benefits := match topicDetails with | some td => td.benefits | none => some []
    targetAudience := match topicDetails with | some td => td.targetAudience | none => some []
    textLength := meditationText.length
    wordCount := countWords meditationText language
    estimatedReadTime := estimateReadTime meditationText language }

/-- Response handling after the LLM call (meditationGuide.js lines 98-205):
LLM failure and empty-content checks, then the voice phase and final assembly.
Returns the result envelope and the TTS payload issued (if any). -/
def orchPostLlm (env : OrchEnv) (e : Event) (llmResp : LlmResp) :
    GenResult × Option TtsPayload :=
  let meditationText := extractText llmResp
  if llmResp.success = false then
    ({ success := false,
       error := some (llmResp.error.getD
         { code := ERROR_LLM_FAILED, message := "调用大模型失败" }) }, none)
  else if meditationText = "" then
    ({ success := false,
       error := some { code := ERROR_EMPTY_CONTENT, message := "大模型生成的内容为空" } }, none)
  else
    let audioStep := orchVoicePhase env e meditationText
    ({ success := true,
       data := some { text := meditationText, audio := audioStep.2,
                      metadata := orchMetadata env e meditationText } },
      audioStep.1)

/-- Embedding of `handleMeditationGuide` (meditationGuide.js lines 32-219):
validation, then prompt/request construction, the LLM call, and response
handling.  The analytics hook `recordUsage` only logs and is not modelled; in
this total model the outer catch-all (lines 207-218) is unreachable. -/
def handleMeditationGuide (env : OrchEnv) (e : Event) : OrchOut :=
  match validateInputs env.strict env.catalog (e.topic.getD "基础放松")
      (e.language.getD "zh") (effectiveDuration e) with
  | some err => { result := { success := false, error := some err } }
  | none =>
    let req := orchLlmRequest env e
    let vp := orchPostLlm env e (env.llm req)
    { result := vp.1, llmReq := some req, ttsReq := vp.2 }

/-- One element of the batch `topics` array: a bare topic string or a config
object. -/
inductive TopicSpec where
  | str : String → TopicSpec
  | evt : Event → TopicSpec
deriving DecidableEq, Repr

/-- Event consumed by `handleBatchGeneration`. -/
structure BatchEvent where
  topics : List TopicSpec := []
  baseOptions : Event := {}
deriving DecidableEq, Repr

/-- One per-item entry of the batch result (meditationGuide.js lines 348-353). -/
structure ItemResult where
  topic : Option String
  success : Bool
  data : Option GenData
  error : Option ErrObj
deriving DecidableEq, Repr

/-- Aggregate batch data (lines 366-372).  The wall-clock `processingTime`
field is not modelled. -/
structure BatchData where
  total : ℕ
  successful : ℕ
  failed : ℕ
  results : List ItemResult
deriving DecidableEq, Repr

structure BatchResult where
  success : Bool
  data : Option BatchData := none
  error : Option ErrObj := none
deriving DecidableEq, Repr

/-- Spread merge `{ topic: topicConfig, ...baseOptions }` (line 343): fields
present on `baseOptions` override the topic literal. -/
def mergeStr (base : Event) (s : String) : Event :=
  { base with topic := base.topic <|> some s }

/-- Spread merge `{ ...baseOptions, ...topicConfig }` (line 344): fields
present on the config object override the base. -/
def mergeEvt (base cfg : Event) : Event :=
  { topic := cfg.topic <|> base.topic
    style := cfg.style <|> base.style
    duration := cfg.duration <|> base.duration
    language := cfg.language <|> base.language
    voice := cfg.voice <|> base.voice
    options := cfg.options <|> base.options }

/-- Embedding of `handleBatchGeneration` (meditationGuide.js lines 325-374).
In this total model `handleMeditationGuide` never throws, so the per-item catch
branch (lines 354-361) is unreachable; non-array `topics` inputs are outside
the model. -/
def handleBatchGeneration (env : OrchEnv) (be : BatchEvent) : BatchResult :=
  if be.topics.isEmpty then
    { success := false,
      error := some { code := "INVALID_TOPICS", message := "请提供要生成的主题列表" } }
  else
    let results : List ItemResult := be.topics.map (fun spec =>
      let opts :=
        match spec with
        | .str s => mergeStr be.baseOptions s
        | .evt cfg => mergeEvt be.baseOptions cfg
      let r := (handleMeditationGuide env opts).result
      { topic := opts.topic
        success := r.success
        data := if r.success then r.data else none
        error := r.error })
    { success := true
      data := some
        { total := be.topics.length
          successful := (results.filter (fun r => r.success)).length
          failed := (results.filter (fun r => !r.success)).length
          results := results } }

/- ===================== concrete instances for witnesses ===================== -/

/-- An LLM oracle that always succeeds with a fixed non-empty text. -/
def okLlm : LlmRequest → LlmResp := fun _ =>
  { success := true, data := some { text := some "深呼吸，放松你的身体" } }

/-- An LLM oracle whose responses carry none of the recognized content shapes. -/
def emptyLlm : LlmRequest → LlmResp := fun _ => { success := true, data := some {} }

/-- A TTS boundary that always throws. -/
def noTts : TtsPayload → Except String TtsResp := fun _ => .error "provider down"

def envOkNoTts : OrchEnv := { strict := false, catalog := specCatalog, llm := okLlm, tts := noTts }

def envEmptyLlm : OrchEnv := { strict := false, catalog := specCatalog, llm := emptyLlm, tts := noTts }

def voiceEvent : Event := { voice := some true, language := some "zh" }

def skipAudioEvent : Event :=
  { voice := some true, language := some "zh", options := some { skipAudio := true } }

def quickEvent : Event := { duration := some 2 }

def batchScenarioEnv : OrchEnv := { strict := true, catalog := specCatalog, llm := okLlm, tts := noTts }

def batchScenario : BatchEvent := { topics := [.str "sleep", .str "invalid-topic-xyz"] }

/-- A run of `n` copies of the one-byte character `a`. -/
def aRun (n : ℕ) : String := String.mk (List.replicate n 'a')

/- ===================== helper lemmas ===================== -/

theorem jsByteLength_aRun (n : ℕ) : jsByteLength (aRun n) = n := by
  have h1 : Char.utf8Size 'a' = 1 := by decide
  simp [aRun, jsByteLength, List.map_replicate, List.sum_replicate, smul_eq_mul, h1]

theorem aRun_ne_empty (n : ℕ) (hn : 0 < n) : aRun n ≠ "" := by
  intro h
  have h2 := jsByteLength_aRun n
  rw [h] at h2
  simp [jsByteLength] at h2
  omega

/-- Boolean negation helper: a Bool that is not false is true. -/
theorem bool_ne_false {b : Bool} (h : ¬ b = false) : b = true := by
  cases b
  · exact absurd rfl h
  · rfl

/-- Characterization of `orchPostLlm` when the LLM succeeded with non-empty
extracted text. -/
theorem orchPostLlm_ok (env : OrchEnv) (e : Event) (r : LlmResp)
    (h1 : r.success = true) (h2 : extractText r ≠ "") :
    orchPostLlm env e r =
      ({ success := true,
         data := some { text := extractText r,
                        audio := (orchVoicePhase env e (extractText r)).2,
                        metadata := orchMetadata env e (extractText r) } },
        (orchVoicePhase env e (extractText r)).1) := by
  unfold orchPostLlm
  rw [if_neg (by simp [h1]), if_neg h2]

/-- The voice phase issues a payload exactly when the gate
`voice && language === 'zh'` holds. -/
theorem orchVoicePhase_gate (env : OrchEnv) (e : Event) (t : String) :
    ((orchVoicePhase env e t).1.isSome = true →
      e.voice.getD false = true ∧ e.language.getD "zh" = "zh")
    ∧ (e.voice.getD false = true → e.language.getD "zh" = "zh" →
      (orchVoicePhase env e t).1.isSome = true) := by
  constructor
  · unfold orchVoicePhase
    split
    · next hgate => exact fun _ => hgate
    · intro h; simp at h
  · intro hv hl
    unfold orchVoicePhase
    rw [if_pos ⟨hv, hl⟩]
    rfl

/-- When every TTS outcome fails (throw, or a response without truthy
`success`/`audioUrl`), the voice phase yields no audio. -/
def ttsFails : Except String TtsResp → Prop
  | .error _ => True
  | .ok r => r.success = false ∧ strTruthy r.audioUrl = false

theorem ttsOutcomeToAudio_none (res : Except String TtsResp) (h : ttsFails res) :
    ttsOutcomeToAudio res = none := by
  cases res with
  | error _ => rfl
  | ok r =>
    obtain ⟨h1, h2⟩ := h
    simp [ttsOutcomeToAudio, h1, h2]

theorem orchVoicePhase_audio_none (env : OrchEnv) (e : Event) (t : String)
    (hT : ∀ p, ttsFails (env.tts p)) :
    (orchVoicePhase env e t).2 = none := by
  unfold orchVoicePhase
  split
  · exact ttsOutcomeToAudio_none _ (hT _)
  · rfl

/-- Lookup after `mapDelete` always misses the deleted key. -/
theorem lookup_mapDelete (l : List (String × ℕ)) (k : String) :
    (mapDelete l k).lookup k = none := by
  induction l with
  | nil => rfl
  | cons a t ih =>
    obtain ⟨a1, a2⟩ := a
    rw [mapDelete, List.filter_cons]
    by_cases h : a1 = k
    · rw [if_neg (by simp [h])]
      exact ih
    · rw [if_pos (by simpa using h)]
      have hb : (k == a1) = false := by
        simp only [beq_eq_false_iff_ne]
        exact fun hk => h hk.symm
      simp only [List.lookup, hb]
      exact ih

/-- A key whose lookup misses is not among the stored keys. -/
theorem lookup_none_not_mem (l : List (String × ℕ)) (k : String)
    (h : l.lookup k = none) : k ∉ l.map Prod.fst := by
  induction l with
  | nil => simp
  | cons a t ih =>
    obtain ⟨a1, a2⟩ := a
    intro hmem
    rcases List.mem_cons.mp hmem with h1 | h1
    · subst h1
      simp [List.lookup] at h
    · cases hbeq : (k == a1) with
      | true =>
        simp only [List.lookup, hbeq] at h
        exact Option.noConfusion h
      | false =>
        simp only [List.lookup, hbeq] at h
        exact ih h h1

/-- One registry event preserves distinctness of the stored keys. -/
theorem regStep_nodup (st : RegState) (ev : RegEvent)
    (h : (st.pending.map Prod.fst).Nodup) :
    (((regStep st ev).pending).map Prod.fst).Nodup := by
  cases ev with
  | settleEv k =>
    exact h.sublist ((List.filter_sublist st.pending).map Prod.fst)
  | callEv text opts =>
    show ((((synthesizeSpeechStart st text opts).2).pending).map Prod.fst).Nodup
    unfold synthesizeSpeechStart
    split
    · exact h
    · dsimp only
      split
      · exact h
      · next hl =>
        exact List.Nodup.cons (lookup_none_not_mem _ _ hl) h

theorem runReg_nodup (tr : List RegEvent) :
    (((runReg tr).pending).map Prod.fst).Nodup := by
  suffices hgen : ∀ st : RegState, (st.pending.map Prod.fst).Nodup →
      (((tr.foldl regStep st).pending).map Prod.fst).Nodup from hgen {} (by simp)
  induction tr with
  | nil => exact fun st h => h
  | cons ev t ih => exact fun st h => ih _ (regStep_nodup st ev h)

/-- Counting: the successes and the failures of a result list partition it. -/
theorem filter_success_add_failed (l : List ItemResult) :
    (l.filter (fun r => r.success)).length + (l.filter (fun r => !r.success)).length
      = l.length := by
  induction l with
  | nil => rfl
  | cons a t ih =>
    cases ha : a.success <;> simp [List.filter_cons, ha] <;> omega

/- ===================== claim theorems ===================== -/

/-- C1: `handleMeditationGuide` calls `synthesizeSpeech` with a single object
argument (meditationGuide.js lines 141-147), so the type check of
`synthesizeSpeech` (tts.js lines 192-196) rejects every such call by throwing,
and every successful result of `handleMeditationGuide` wired to the real TTS
module carries `data.audio = null`. -/
theorem C1_object_argument_audio_null :
    (∀ p : TtsPayload, ttsValidate (.obj p) = .error "[TTS] text 不能为空")
    ∧ (∀ (tenv : TtsEnv) (st : RegState) (p : TtsPayload),
        realTts tenv st p = .error "[TTS] text 不能为空")
    ∧ (∀ (env : OrchEnv) (tenv : TtsEnv) (st : RegState) (e : Event),
        env.tts = realTts tenv st →
        (handleMeditationGuide env e).result.success = true →
        ∃ gd, (handleMeditationGuide env e).result.data = some gd ∧ gd.audio = none) := by
  refine ⟨fun p => rfl, fun tenv st p => rfl, fun env tenv st e hw hs => ?_⟩
  have hT : ∀ p, ttsFails (env.tts p) := fun p => by
    rw [hw]
    exact True.intro
  unfold handleMeditationGuide at hs ⊢
  cases hval : validateInputs env.strict env.catalog (e.topic.getD "基础放松")
      (e.language.getD "zh") (effectiveDuration e) with
  | some err => rw [hval] at hs; simp at hs
  | none =>
    rw [hval] at hs
    dsimp only at hs ⊢
    by_cases h1 : (env.llm (orchLlmRequest env e)).success = false
    · unfold orchPostLlm at hs
      rw [if_pos h1] at hs
      simp at hs
    · by_cases h2 : extractText (env.llm (orchLlmRequest env e)) = ""
      · unfold orchPostLlm at hs
        rw [if_neg h1, if_pos h2] at hs
        simp at hs
      · rw [orchPostLlm_ok _ _ _ (bool_ne_false h1) h2]
        exact ⟨_, rfl, orchVoicePhase_audio_none _ _ _ hT⟩

/-- C1 witness: a concrete request with voice on, wired to the real TTS module
and a successful LLM oracle, succeeds with no audio. -/
theorem C1_object_argument_audio_null_witness :
    ∃ gd, (handleMeditationGuide
        { strict := false, catalog := specCatalog, llm := okLlm, tts := realTts {} {} }
        voiceEvent).result.data = some gd ∧ gd.audio = none :=
  C1_object_argument_audio_null.2.2
    { strict := false, catalog := specCatalog, llm := okLlm, tts := realTts {} {} }
    {} {} voiceEvent rfl rfl

/-- C2 counterexample: with voice requested, language `zh`, and the skip-audio
flag set, `handleMeditationGuide` still issues a synthesis call — the claimed
three-way gate is false because the orchestrator never consults `skipAudio`. -/
theorem C2_voice_gating_counterexample :
    (skipAudioEvent.options.getD {}).skipAudio = true
    ∧ (handleMeditationGuide envOkNoTts skipAudioEvent).ttsReq.isSome = true := by
  exact ⟨rfl, rfl⟩

/-- C2 (amended): in `handleMeditationGuide` the voice phase is attempted if and
only if the caller requests voice AND the language is `zh` (and the request
reaches the voice phase: validation passed and text generation succeeded with
non-empty text); the skip-audio flag is not consulted. -/
theorem C2_voice_gating_amended (env : OrchEnv) (e : Event) :
    ((handleMeditationGuide env e).ttsReq.isSome = true →
      e.voice.getD false = true ∧ e.language.getD "zh" = "zh")
    ∧ (validateInputs env.strict env.catalog (e.topic.getD "基础放松") (e.language.getD "zh")
        (effectiveDuration e) = none →
      (env.llm (orchLlmRequest env e)).success = true →
      extractText (env.llm (orchLlmRequest env e)) ≠ "" →
      e.voice.getD false = true → e.language.getD "zh" = "zh" →
      (handleMeditationGuide env e).ttsReq.isSome = true) := by
  constructor
  · intro hs
    unfold handleMeditationGuide at hs
    cases hval : validateInputs env.strict env.catalog (e.topic.getD "基础放松")
        (e.language.getD "zh") (effectiveDuration e) with
    | some err => rw [hval] at hs; simp at hs
    | none =>
      rw [hval] at hs
      dsimp only at hs
      by_cases h1 : (env.llm (orchLlmRequest env e)).success = false
      · unfold orchPostLlm at hs
        rw [if_pos h1] at hs
        simp at hs
      · by_cases h2 : extractText (env.llm (orchLlmRequest env e)) = ""
        · unfold orchPostLlm at hs
          rw [if_neg h1, if_pos h2] at hs
          simp at hs
        · rw [orchPostLlm_ok _ _ _ (bool_ne_false h1) h2] at hs
          exact (orchVoicePhase_gate env e _).1 hs
  · intro hval h1 h2 hv hl
    unfold handleMeditationGuide
    rw [hval]
    dsimp only
    rw [orchPostLlm_ok _ _ _ h1 h2]
    exact (orchVoicePhase_gate env e _).2 hv hl

/-- C2 witness: with a successful LLM oracle, voice on and language `zh`, the
amended gate fires and a synthesis call is issued. -/
theorem C2_voice_gating_amended_witness :
    (handleMeditationGuide envOkNoTts voiceEvent).ttsReq.isSome = true :=
  (C2_voice_gating_amended envOkNoTts voiceEvent).2 rfl rfl (by decide) rfl rfl

/-- C3: when validation passes, text generation succeeds with non-empty text,
and every speech-synthesis outcome fails (a throw or a response without truthy
`success`/`audioUrl`), `handleMeditationGuide` still returns `success:true`
with populated `data.text` and `data.audio = null`. -/
theorem C3_synthesis_failure_downgrades (env : OrchEnv) (e : Event)
    (hval : validateInputs env.strict env.catalog (e.topic.getD "基础放松")
      (e.language.getD "zh") (effectiveDuration e) = none)
    (h1 : (env.llm (orchLlmRequest env e)).success = true)
    (h2 : extractText (env.llm (orchLlmRequest env e)) ≠ "")
    (hT : ∀ p, ttsFails (env.tts p)) :
    (handleMeditationGuide env e).result.success = true
    ∧ ∃ gd, (handleMeditationGuide env e).result.data = some gd
        ∧ gd.text = extractText (env.llm (orchLlmRequest env e))
        ∧ gd.text ≠ ""
        ∧ gd.audio = none := by
  unfold handleMeditationGuide
  rw [hval]
  dsimp only
  rw [orchPostLlm_ok _ _ _ h1 h2]
  exact ⟨rfl, _, rfl, rfl, h2, orchVoicePhase_audio_none _ _ _ hT⟩

/-- C3 witness: concrete run with an always-throwing TTS boundary. -/
theorem C3_synthesis_failure_downgrades_witness :
    (handleMeditationGuide envOkNoTts voiceEvent).result.success = true
    ∧ ∃ gd, (handleMeditationGuide envOkNoTts voiceEvent).result.data = some gd
        ∧ gd.text = extractText (okLlm (orchLlmRequest envOkNoTts voiceEvent))
        ∧ gd.text ≠ ""
        ∧ gd.audio = none :=
  C3_synthesis_failure_downgrades envOkNoTts voiceEvent rfl rfl (by decide)
    (fun _ => trivial)

/-- C4: a result of `handleMeditationGuide` with `success = true` always
carries non-empty `data.text`; when every extracted model text is empty, the
call returns `success:false`. -/
theorem C4_success_implies_nonempty_text (env : OrchEnv) (e : Event) :
    ((handleMeditationGuide env e).result.success = true →
      ∃ gd, (handleMeditationGuide env e).result.data = some gd ∧ gd.text ≠ "")
    ∧ ((∀ r, extractText (env.llm r) = "") →
      (handleMeditationGuide env e).result.success = false) := by
  constructor
  · intro hs
    unfold handleMeditationGuide at hs ⊢
    cases hval : validateInputs env.strict env.catalog (e.topic.getD "基础放松")
        (e.language.getD "zh") (effectiveDuration e) with
    | some err => rw [hval] at hs; simp at hs
    | none =>
      rw [hval] at hs
      dsimp only at hs ⊢
      by_cases h1 : (env.llm (orchLlmRequest env e)).success = false
      · unfold orchPostLlm at hs
        rw [if_pos h1] at hs
        simp at hs
      · by_cases h2 : extractText (env.llm (orchLlmRequest env e)) = ""
        · unfold orchPostLlm at hs
          rw [if_neg h1, if_pos h2] at hs
          simp at hs
        · rw [orchPostLlm_ok _ _ _ (bool_ne_false h1) h2]
          exact ⟨_, rfl, h2⟩
  · intro hall
    unfold handleMeditationGuide
    cases hval : validateInputs env.strict env.catalog (e.topic.getD "基础放松")
        (e.language.getD "zh") (effectiveDuration e) with
    | some err => rfl
    | none =>
      dsimp only
      unfold orchPostLlm
      split
      · rfl
      · rw [if_pos (hall _)]

/-- C4 witness: a concrete successful run carries non-empty text, and a
concrete run whose LLM responses carry no recognizable content fails. -/
theorem C4_success_implies_nonempty_text_witness :
    (∃ gd, (handleMeditationGuide envOkNoTts voiceEvent).result.data = some gd ∧ gd.text ≠ "")
    ∧ (handleMeditationGuide envEmptyLlm voiceEvent).result.success = false :=
  ⟨(C4_success_implies_nonempty_text envOkNoTts voiceEvent).1 rfl,
   (C4_success_implies_nonempty_text envEmptyLlm voiceEvent).2 (fun _ => rfl)⟩

/-- C5: `synthesizeSpeech` accepts every non-empty text of at most 2000 UTF-8
bytes, and rejects longer text — as well as empty or non-string text — by
throwing before any cache probe, TTS, or upload network call is issued. -/
theorem C5_text_length_precondition :
    (∀ s : String, s ≠ "" → jsByteLength s ≤ 2000 → ttsValidate (.str s) = .ok s)
    ∧ (∀ (env : TtsEnv) (st : RegState) (opts : TtsOpts) (s : String),
        jsByteLength s > 2000 →
        synthesizeSpeechRun env st (.str s) opts =
          (.threw ("[TTS] text 超长（" ++ toString (jsByteLength s) ++ " 字节，限制 2000 字节）"),
            st, []))
    ∧ (∀ (env : TtsEnv) (st : RegState) (opts : TtsOpts),
        synthesizeSpeechRun env st (.str "") opts = (.threw "[TTS] text 不能为空", st, []))
    ∧ (∀ (env : TtsEnv) (st : RegState) (opts : TtsOpts) (p : TtsPayload),
        synthesizeSpeechRun env st (.obj p) opts = (.threw "[TTS] text 不能为空", st, [])) := by
  refine ⟨fun s h1 h2 => ?_, fun env st opts s hgt => ?_, fun env st opts => rfl,
    fun env st opts p => rfl⟩
  · unfold ttsValidate
    dsimp only
    rw [if_neg h1, if_neg (by omega)]
  · have h1 : s ≠ "" := by
      intro h
      rw [h] at hgt
      simp [jsByteLength] at hgt
    unfold synthesizeSpeechRun ttsValidate
    dsimp only
    rw [if_neg h1, if_pos hgt]

/-- C5 witness: a 2000-byte text passes the check and a 2001-byte text is
rejected with no network call. -/
theorem C5_text_length_precondition_witness :
    ttsValidate (.str (aRun 2000)) = .ok (aRun 2000)
    ∧ synthesizeSpeechRun {} {} (.str (aRun 2001)) {} =
        (.threw ("[TTS] text 超长（" ++ toString (jsByteLength (aRun 2001)) ++ " 字节，限制 2000 字节）"),
          {}, []) := by
  constructor
  · exact C5_text_length_precondition.1 (aRun 2000) (aRun_ne_empty 2000 (by omega))
      (by rw [jsByteLength_aRun])
  · exact C5_text_length_precondition.2.1 {} {} {} (aRun 2001)
      (by rw [jsByteLength_aRun]; omega)

/-- C6: for durations below 3 minutes the orchestrator selects quick-mode — the
system prompt and the temperature (0.6 instead of the 0.7 default) differ from
standard mode — and the token budget is the standard formula times the
quick-mode factor 0.8: at duration 2 the standard budget is 630 and the quick
budget 504. -/
theorem C6_quick_mode_selection (c : Catalog) (L : LlmRequest → LlmResp)
    (T : TtsPayload → Except String TtsResp) :
    ∃ req, (handleMeditationGuide { strict := false, catalog := c, llm := L, tts := T }
        quickEvent).llmReq = some req
      ∧ req.temperature = 3/5
      ∧ (3/5 : ℚ) ≠ 7/10
      ∧ req.messages.head? = some { role := "system", content := quickSystemPrompt }
      ∧ quickSystemPrompt ≠ standardSystemPrompt
      ∧ req.maxTokens = calculateMaxTokens 2 true
      ∧ calculateMaxTokens 2 true = 504
      ∧ calculateMaxTokens 2 false = 630
      ∧ (∀ d : ℕ, 0 < d → d < 3 →
          calculateMaxTokens (d : ℚ) true = ⌊(calculateMaxTokens (d : ℚ) false : ℚ) * (4/5)⌋) := by
  refine ⟨_, rfl, rfl, by norm_num, rfl, by decide, rfl, ?_, ?_, ?_⟩
  · norm_num [calculateMaxTokens, WORDS_PER_MINUTE, TOKENS_PER_WORD, TOKEN_BUFFER]
  · norm_num [calculateMaxTokens, WORDS_PER_MINUTE, TOKENS_PER_WORD, TOKEN_BUFFER]
  · intro d h1 h2
    interval_cases d <;>
      norm_num [calculateMaxTokens, WORDS_PER_MINUTE, TOKENS_PER_WORD, TOKEN_BUFFER]

/-- C6 witness: the quick/standard budget relation instantiated at duration 2. -/
theorem C6_quick_mode_selection_witness :
    calculateMaxTokens ((2 : ℕ) : ℚ) true
      = ⌊(calculateMaxTokens ((2 : ℕ) : ℚ) false : ℚ) * (4/5)⌋ := by
  obtain ⟨req, h⟩ := C6_quick_mode_selection specCatalog okLlm noTts
  exact h.2.2.2.2.2.2.2.2 2 (by omega) (by omega)

/-- C7: the claim that the normalized speed always lies in [-2, 2] and the
normalized volume in [0, 10] fails when the field is absent: because unary `+`
binds tighter than `??`, the `?? 0` / `?? 5` defaults are dead code, NaN
reaches `clamp`, and `Math.max`/`Math.min` propagate it.  The voice-type and
sample-rate defaults (1001, 16000) and the clamping of numeric inputs do hold. -/
theorem C7_speed_volume_nan_on_missing :
    ttsFullOpts {} =
      { voiceType := 1001, speed := .nan, volume := .nan, sampleRate := 16000, lang := "zh" }
    ∧ ttsFullOpts { speed := .num 5, volume := .num 20 } =
      { voiceType := 1001, speed := .num 2, volume := .num 10, sampleRate := 16000, lang := "zh" }
    ∧ ttsFullOpts { speed := .nanv, volume := .nanv } =
      { voiceType := 1001, speed := .nan, volume := .nan, sampleRate := 16000, lang := "zh" }
    ∧ (∀ q : ℚ, JNum.nan ≠ JNum.num q) := by
  refine ⟨rfl, ?_, rfl, fun q h => JNum.noConfusion h⟩
  unfold ttsFullOpts
  simp only [FullOpts.mk.injEq]
  refine ⟨rfl, ?_, ?_, rfl, rfl⟩
  · show clampNum (.num 5) (.num (-2)) (.num 2) = .num 2
    simp [clampNum, jmin, jmax]
    norm_num
  · show clampNum (.num 20) (.num 0) (.num 10) = .num 10
    simp [clampNum, jmin, jmax]
    norm_num

/-- C8: the pending registry holds at most one task per cache key (the stored
keys stay distinct along any event trace); a second call with the same text and
options issued while the first is outstanding reuses the same task without
changing the registry or starting a new task; settlement removes the entry
unconditionally, so a later identical call starts a fresh task. -/
theorem C8_pending_registry_dedup (tr : List RegEvent) :
    (((runReg tr).pending).map Prod.fst).Nodup
    ∧ (∀ (st st1 : RegState) (text : JsText) (opts : TtsOpts) (t : ℕ),
        synthesizeSpeechStart st text opts = (.started t, st1) →
        synthesizeSpeechStart st1 text opts = (.reused t, st1))
    ∧ (∀ (st : RegState) (key : String), (settleTask st key).pending.lookup key = none)
    ∧ (∀ (st st1 : RegState) (s : String) (opts : TtsOpts) (t : ℕ),
        synthesizeSpeechStart st (.str s) opts = (.started t, st1) →
        ∃ st2, synthesizeSpeechStart
            (settleTask st1 (ttsDedupKey (ttsFullOpts opts) s)) (.str s) opts
          = (.started (settleTask st1 (ttsDedupKey (ttsFullOpts opts) s)).nextId, st2)) := by
  refine ⟨runReg_nodup tr, fun st st1 text opts t h => ?_,
    fun st key => lookup_mapDelete st.pending key, fun st st1 s opts t h => ?_⟩
  · unfold synthesizeSpeechStart at h ⊢
    cases hv : ttsValidate text with
    | error e =>
      rw [hv] at h
      exact absurd (congrArg Prod.fst h) (by simp)
    | ok s =>
      rw [hv] at h
      dsimp only at h ⊢
      cases hl : List.lookup (ttsDedupKey (ttsFullOpts opts) s) st.pending with
      | some t0 =>
        rw [hl] at h
        exact absurd (congrArg Prod.fst h) (by simp)
      | none =>
        rw [hl] at h
        have h1 := congrArg Prod.fst h
        have h2 := congrArg Prod.snd h
        dsimp only at h1 h2
        injection h1 with h1'
        subst h1'
        subst h2
        rw [List.lookup_cons_self]
  · unfold synthesizeSpeechStart at h ⊢
    cases hv : ttsValidate (.str s) with
    | error e =>
      rw [hv] at h
      exact absurd (congrArg Prod.fst h) (by simp)
    | ok s' =>
      have hs' : s' = s := by
        unfold ttsValidate at hv
        dsimp only at hv
        split at hv
        · exact absurd hv (by simp)
        · split at hv
          · exact absurd hv (by simp)
          · cases hv
            rfl
      subst hs'
      rw [hv] at h
      dsimp only at h ⊢
      cases hl : List.lookup (ttsDedupKey (ttsFullOpts opts) s') st.pending with
      | some t0 =>
        rw [hl] at h
        exact absurd (congrArg Prod.fst h) (by simp)
      | none =>
        rw [hl] at h
        have h2 := congrArg Prod.snd h
        dsimp only at h2
        subst h2
        simp only [settleTask]
        rw [lookup_mapDelete]
        exact ⟨_, rfl⟩

/-- C8 witness: a concrete double call on the same text reuses the pending
task, and the stored keys of a concrete trace are distinct. -/
theorem C8_pending_registry_dedup_witness :
    synthesizeSpeechStart ((synthesizeSpeechStart {} (.str "你好") {}).2) (.str "你好") {} =
      (.reused 0, (synthesizeSpeechStart {} (.str "你好") {}).2)
    ∧ (((runReg [.callEv (.str "你好") {}, .callEv (.str "你好") {}]).pending).map Prod.fst).Nodup :=
  ⟨(C8_pending_registry_dedup []).2.1 {} _ (.str "你好") {} 0 rfl,
   (C8_pending_registry_dedup [.callEv (.str "你好") {}, .callEv (.str "你好") {}]).1⟩

/-- C9: for every non-empty topics array the batch wrapper itself returns
`success:true`, produces one per-item result per topic, reports `total` equal
to the number of topics, and `successful + failed = total`; concretely, for
`['sleep', 'invalid-topic-xyz']` under strict validation the result is one
success and one failure carrying the INVALID_TOPIC code. -/
theorem C9_batch_aggregation :
    (∀ (env : OrchEnv) (be : BatchEvent), be.topics.isEmpty = false →
      (handleBatchGeneration env be).success = true
      ∧ ∃ d, (handleBatchGeneration env be).data = some d
          ∧ d.total = be.topics.length
          ∧ d.results.length = be.topics.length
          ∧ d.successful + d.failed = d.total)
    ∧ (∃ d, (handleBatchGeneration batchScenarioEnv batchScenario).data = some d
        ∧ (handleBatchGeneration batchScenarioEnv batchScenario).success = true
        ∧ d.total = 2 ∧ d.successful = 1 ∧ d.failed = 1
        ∧ d.results.map (fun r => r.success) = [true, false]
        ∧ d.results.map (fun r => r.error.map (fun er => er.code))
            = [none, some ERROR_INVALID_TOPIC]) := by
  constructor
  · intro env be h
    unfold handleBatchGeneration
    rw [if_neg (by simp [h])]
    refine ⟨rfl, _, rfl, rfl, by simp, ?_⟩
    dsimp only
    rw [filter_success_add_failed, List.length_map]
  · exact ⟨_, rfl, rfl, rfl, rfl, rfl, rfl, rfl⟩

/-- C9 witness: the general aggregation facts instantiated on the concrete
two-topic scenario. -/
theorem C9_batch_aggregation_witness :
    (handleBatchGeneration batchScenarioEnv batchScenario).success = true
    ∧ ∃ d, (handleBatchGeneration batchScenarioEnv batchScenario).data = some d
        ∧ d.total = batchScenario.topics.length
        ∧ d.results.length = batchScenario.topics.length
        ∧ d.successful + d.failed = d.total :=
  C9_batch_aggregation.1 batchScenarioEnv batchScenario rfl

/-- C10 counterexample: for the catalog's `sleep` entry (first recommended
style `healing`, default duration 30), `buildPrompt` resolves an unset style to
the parameter default `gentle` and an unset duration to the parameter default
10 — not to the topic's recommendation — because the destructuring defaults
(meditation_prompt.js lines 69-75) fire before the `style || ...` /
`duration || ...` reassignments (lines 81-82) and are truthy.  Observably, the
prompt built with both left unset equals the prompt built with explicit
`gentle`/10. -/
theorem C10_topic_defaulting_counterexample :
    findTopicConfig specCatalog (some "sleep") = some sleepTopic
    ∧ sleepTopic.recommendedStyles.head? = some "healing"
    ∧ sleepTopic.defaultDuration = 30
    ∧ resolvedStyle (findTopicConfig specCatalog (some "sleep")) (destructS "gentle" .undef)
        = some "gentle"
    ∧ resolvedStyle (findTopicConfig specCatalog (some "sleep")) (destructS "gentle" .undef)
        ≠ sleepTopic.recommendedStyles.head?
    ∧ resolvedDuration (findTopicConfig specCatalog (some "sleep")) (destructN 10 .undef)
        = some 10
    ∧ resolvedDuration (findTopicConfig specCatalog (some "sleep")) (destructN 10 .undef)
        ≠ some sleepTopic.defaultDuration
    ∧ buildPrompt specCatalog { topic := .val "sleep" }
        = buildPrompt specCatalog
            { topic := .val "sleep", style := .val "gentle", duration := .val 10 } := by
  refine ⟨rfl, rfl, rfl, rfl, by decide, rfl, by decide, rfl⟩

/-- C10 (amended): when the topic resolves to a catalog entry, an unset
(undefined) style resolves to the parameter default `gentle` and an unset
duration to the parameter default 10; the topic's first recommended style and
default duration are used only when the caller explicitly passes a falsy value
(`null` or `""` for style, `null` or `0` for duration); explicitly supplied
truthy values take precedence. -/
theorem C10_topic_defaulting_amended (c : Catalog) (t : String) (cfg : TopicType)
    (h : findTopicConfig c (some t) = some cfg) :
    resolvedStyle (findTopicConfig c (some t)) (destructS "gentle" .undef) = some "gentle"
    ∧ (∀ s, s ≠ "" →
        resolvedStyle (findTopicConfig c (some t)) (destructS "gentle" (.val s)) = some s)
    ∧ resolvedStyle (findTopicConfig c (some t)) (destructS "gentle" .nullv)
        = cfg.recommendedStyles.head?
    ∧ resolvedStyle (findTopicConfig c (some t)) (destructS "gentle" (.val ""))
        = cfg.recommendedStyles.head?
    ∧ resolvedDuration (findTopicConfig c (some t)) (destructN 10 .undef) = some 10
    ∧ (∀ q : ℚ, q ≠ 0 →
        resolvedDuration (findTopicConfig c (some t)) (destructN 10 (.val q)) = some q)
    ∧ resolvedDuration (findTopicConfig c (some t)) (destructN 10 .nullv)
        = some cfg.defaultDuration
    ∧ resolvedDuration (findTopicConfig c (some t)) (destructN 10 (.val 0))
        = some cfg.defaultDuration := by
  rw [h]
  refine ⟨rfl, fun s hs => ?_, rfl, rfl, rfl, fun q hq => ?_, rfl, ?_⟩
  · simp [resolvedStyle, destructS, strTruthy, hs]
  · simp [resolvedDuration, destructN, numTruthy, hq]
  · simp [resolvedDuration, destructN, numTruthy]

/-- C10 witness: the amended defaulting rules instantiated on the `sleep`
catalog entry. -/
theorem C10_topic_defaulting_amended_witness :
    resolvedStyle (findTopicConfig specCatalog (some "sleep")) (destructS "gentle" .undef)
        = some "gentle"
    ∧ resolvedStyle (findTopicConfig specCatalog (some "sleep")) (destructS "gentle" (.val "zen"))
        = some "zen"
    ∧ resolvedStyle (findTopicConfig specCatalog (some "sleep")) (destructS "gentle" .nullv)
        = sleepTopic.recommendedStyles.head?
    ∧ resolvedDuration (findTopicConfig specCatalog (some "sleep")) (destructN 10 .nullv)
        = some sleepTopic.defaultDuration :=
  ⟨(C10_topic_defaulting_amended specCatalog "sleep" sleepTopic rfl).1,
   (C10_topic_defaulting_amended specCatalog "sleep" sleepTopic rfl).2.1 "zen" (by decide),
   (C10_topic_defaulting_amended specCatalog "sleep" sleepTopic rfl).2.2.1,
   (C10_topic_defaulting_amended specCatalog "sleep" sleepTopic rfl).2.2.2.2.2.2.1⟩

end MeditationAgent
